import Mathlib

/-!
Shallow embedding of the zip-it-and-ship-it packaging core:
the Node.js bundler orchestrator (`src/runtimes/node/index.js`),
the function listing surface (`src/main.ts`), and the archive
assembler described by the design document.

External collaborators (the esbuild engine, the zisi graph-builder
strategy, filesystem discovery) are modelled as oracle parameters:
the orchestrator's observable behaviour is a function of their
outcomes, which is exactly what the verified properties quantify over.
-/

deriving instance DecidableEq for Except

namespace Zisi

/-- JS bundler identifiers, from `src/utils/consts`
(`JS_BUNDLER_ESBUILD`, `JS_BUNDLER_ESBUILD_ZISI`, `JS_BUNDLER_ZISI`). -/
inductive Bundler
  | esbuild
  | esbuild_zisi
  | zisi
deriving DecidableEq, Repr

/-- The slice of the function configuration object the core reads:
`config.nodeBundler` (absent = falsy in JS) and `config.schedule`. -/
structure Config where
  nodeBundler : Option Bundler
  schedule : Option String
deriving DecidableEq, Repr

/-- The named parameters threaded through `zipFunction`
(`src/runtimes/node/index.js`, lines 37-50). -/
structure FnParams where
  destFolder : String
  extension : String
  filename : String
  mainFile : String
  srcPath : String
  config : Config
deriving DecidableEq, Repr

/-- A bundler failure: `errors` is the structured sub-error list the
fallback reads as `esbuildError.errors`; `msg` the thrown message. -/
structure BundlerError where
  errors : List String
  msg : String
deriving DecidableEq, Repr

/-- The record a strategy resolves with (`{ config, path }` for the
passthrough branch; the engine strategies resolve with the same shape,
to which the fallback may add `bundlerErrors`). -/
structure ZipResult where
  path : String
  config : Config
  bundlerErrors : Option (List String)
deriving DecidableEq, Repr

/-- Observable action a `zipFunction` call performed: a byte copy of the
pre-archived input (recording the copied bytes), or an engine run. -/
inductive ZipAction
  | copied (src : String) (dst : String) (bytes : List Nat)
  | ranZisi
  | ranEsbuild
deriving DecidableEq, Repr

/-- Oracle environment: outcomes of the external collaborators.
`esModuleFiles` is the per-file result of the static-module-syntax
probe; `fileBytes` the filesystem contents read by `cpFile`;
`zipZisiResult` / `zipEsbuildResult` the outcomes of the two bundling
strategies (`zip_zisi.js` / `zip_esbuild.js`, invoked as opaque
transforms per the design document). -/
structure NodeEnv where
  esModuleFiles : String → Bool
  fileBytes : String → List Nat
  zipZisiResult : FnParams → Except BundlerError ZipResult
  zipEsbuildResult : FnParams → Except BundlerError ZipResult

/-- Models Node's `path.join(destFolder, filename)` for a folder plus a
plain filename. -/
def join (a b : String) : String := a ++ "/" ++ b

/-- Modelled from the spec: the entry-file module-system probe
(`src/runtimes/node/detect_es_module.js` is not under `src/`).
Per the design document the probe reads the entry file for
static-module-syntax markers; when no entry file is supplied there is
nothing to probe, so no markers are detected and the result is false. -/
def detectEsModule (esModule : String → Bool) : Option String → Bool
  | Option.none => false
  | Option.some f => esModule f

/-- `getDefaultBundler` (`src/runtimes/node/index.js`, lines 15-27):
TypeScript files always use esbuild; otherwise esbuild exactly when the
entry file is detected as an ES module, else zisi. -/
def getDefaultBundler (esModule : String → Bool) (extension : String)
    (mainFile : Option String) : Bundler :=
  if extension = ".ts" then Bundler.esbuild
  else if detectEsModule esModule mainFile then Bundler.esbuild
  else Bundler.zisi

/-- The bundler selected by `zipFunction` (line 52):
`config.nodeBundler || await getDefaultBundler({ extension, mainFile })`. -/
def chooseBundler (env : NodeEnv) (p : FnParams) : Bundler :=
  match p.config.nodeBundler with
  | Option.some b => b
  | Option.none => getDefaultBundler env.esModuleFiles p.extension (Option.some p.mainFile)

/-- The bundler selected by `getSrcFilesWithBundler` (line 32):
`config.nodeBundler || await getDefaultBundler({ extension })` — note
that `mainFile` is not passed to `getDefaultBundler` on this path. -/
def listingBundler (env : NodeEnv) (p : FnParams) : Bundler :=
  match p.config.nodeBundler with
  | Option.some b => b
  | Option.none => getDefaultBundler env.esModuleFiles p.extension Option.none

/-- `zipFunction` (`src/runtimes/node/index.js`, lines 37-92):
compute the bundler; if the extension is `.zip`, copy the source archive
to `join(destFolder, filename)` and resolve with `{ config, path }`;
otherwise dispatch to the zisi or esbuild strategy. The returned
`ZipAction` records which of the three branches ran. -/
def zipFunction (env : NodeEnv) (p : FnParams) :
    Except BundlerError (ZipResult × ZipAction) :=
  let bundler := chooseBundler env p
  if p.extension = ".zip" then
    let destPath := join p.destFolder p.filename
    Except.ok ({ path := destPath, config := p.config, bundlerErrors := Option.none },
      ZipAction.copied p.srcPath destPath (env.fileBytes p.srcPath))
  else if bundler = Bundler.zisi then
    (env.zipZisiResult p).map (fun r => (r, ZipAction.ranZisi))
  else
    (env.zipEsbuildResult p).map (fun r => (r, ZipAction.ranEsbuild))

/-- `{ ...parameters, config: { ...config, nodeBundler: b } }`. -/
def setBundler (p : FnParams) (b : Bundler) : FnParams :=
  { p with config := { p.config with nodeBundler := Option.some b } }

/-- `zipWithFunctionWithFallback` (`src/runtimes/node/index.js`,
lines 94-113): a pinned (non-composite) bundler goes straight to
`zipFunction`; the composite `esbuild_zisi` setting tries esbuild first,
falls back to zisi on failure attaching `esbuildError.errors` to a
successful retry, and re-throws the primary esbuild error if the retry
also fails. -/
def zipWithFunctionWithFallback (env : NodeEnv) (p : FnParams) :
    Except BundlerError (ZipResult × ZipAction) :=
  if p.config.nodeBundler ≠ Option.some Bundler.esbuild_zisi then
    zipFunction env p
  else
    match zipFunction env (setBundler p Bundler.esbuild) with
    | Except.ok r => Except.ok r
    | Except.error esbuildError =>
      match zipFunction env (setBundler p Bundler.zisi) with
      | Except.ok (data, act) =>
          Except.ok ({ data with bundlerErrors := Option.some esbuildError.errors }, act)
      | Except.error _ => Except.error esbuildError

/-! Concrete fixtures used by the witness theorems. -/

/-- A primary (esbuild) failure with structured sub-errors. -/
def eEsb : BundlerError := { errors := ["esbuild-sub-error"], msg := "esbuild failed" }

/-- A retry (zisi) failure, distinct from the primary one. -/
def eZisi : BundlerError := { errors := ["zisi-sub-error"], msg := "zisi failed" }

/-- A successful zisi result. -/
def rZisi : ZipResult :=
  { path := "dist/func.zip", config := { nodeBundler := Option.none, schedule := Option.none },
    bundlerErrors := Option.none }

/-- Environment in which both bundling strategies fail. -/
def envBothFail : NodeEnv :=
  { esModuleFiles := fun _ => false
    fileBytes := fun _ => [7, 7, 7]
    zipZisiResult := fun _ => Except.error eZisi
    zipEsbuildResult := fun _ => Except.error eEsb }

/-- Environment in which esbuild fails and zisi succeeds. -/
def envEsbFails : NodeEnv :=
  { esModuleFiles := fun _ => false
    fileBytes := fun _ => [7, 7, 7]
    zipZisiResult := fun _ => Except.ok rZisi
    zipEsbuildResult := fun _ => Except.error eEsb }

/-- A function configured with the composite `esbuild_zisi` strategy. -/
def pComposite : FnParams :=
  { destFolder := "dist", extension := ".js", filename := "func.zip",
    mainFile := "src/func.js", srcPath := "src/func.js",
    config := { nodeBundler := Option.some Bundler.esbuild_zisi, schedule := Option.none } }

/-- A function pinned to the single zisi strategy. -/
def pPinnedZisi : FnParams :=
  { pComposite with config := { nodeBundler := Option.some Bundler.zisi, schedule := Option.none } }

/-- A pre-archived function (extension `.zip`), pinned to esbuild. -/
def pZipInput : FnParams :=
  { destFolder := "dist", extension := ".zip", filename := "func.zip",
    mainFile := "src/func.zip", srcPath := "src/func.zip",
    config := { nodeBundler := Option.some Bundler.esbuild, schedule := Option.none } }

/-! ## C1 -/

/-- C1: for a function configured with the composite strategy, when the
primary esbuild attempt fails and the zisi retry also fails, the error
surfaced by `zipWithFunctionWithFallback` is the primary esbuild
failure, not the retry's. -/
theorem fallback_double_failure_surfaces_primary_error
    (env : NodeEnv) (p : FnParams) (e1 e2 : BundlerError)
    (hc : p.config.nodeBundler = Option.some Bundler.esbuild_zisi)
    (h1 : zipFunction env (setBundler p Bundler.esbuild) = Except.error e1)
    (h2 : zipFunction env (setBundler p Bundler.zisi) = Except.error e2) :
    zipWithFunctionWithFallback env p = Except.error e1 := by
  unfold zipWithFunctionWithFallback
  simp [hc, h1, h2]

/-- Witness for C1 at a concrete composite-configured function whose
two strategy attempts both fail: the surfaced error is the esbuild one. -/
theorem fallback_double_failure_witness :
    zipWithFunctionWithFallback envBothFail pComposite = Except.error eEsb :=
  fallback_double_failure_surfaces_primary_error envBothFail pComposite eEsb eZisi
    (by decide) (by decide) (by decide)

/-! ## C2 -/

/-- C2: for a function configured with the composite strategy, the
esbuild engine is attempted first; when it fails and the zisi retry
succeeds, the returned result is the retry's successful result with the
primary failure's structured sub-errors attached as `bundlerErrors`. -/
theorem fallback_retry_success_attaches_primary_suberrors
    (env : NodeEnv) (p : FnParams) (e : BundlerError) (d : ZipResult) (a : ZipAction)
    (hc : p.config.nodeBundler = Option.some Bundler.esbuild_zisi)
    (h1 : zipFunction env (setBundler p Bundler.esbuild) = Except.error e)
    (h2 : zipFunction env (setBundler p Bundler.zisi) = Except.ok (d, a)) :
    zipWithFunctionWithFallback env p =
      Except.ok ({ d with bundlerErrors := Option.some e.errors }, a) := by
  unfold zipWithFunctionWithFallback
  simp [hc, h1, h2]

/-- Witness for C2 at a concrete composite-configured function where
esbuild fails and zisi succeeds: the result is zisi's, carrying the
esbuild sub-errors. -/
theorem fallback_retry_success_witness :
    zipWithFunctionWithFallback envEsbFails pComposite =
      Except.ok ({ rZisi with bundlerErrors := Option.some ["esbuild-sub-error"] },
        ZipAction.ranZisi) :=
  fallback_retry_success_attaches_primary_suberrors envEsbFails pComposite eEsb rZisi
    ZipAction.ranZisi (by decide) (by decide) (by decide)

/-! ## C3 -/

/-- C3: a function pinned to a single (non-composite) bundler never
falls back: the orchestrator is a single `zipFunction` invocation, the
selected bundler is exactly the pinned one, and a failure of that
invocation propagates verbatim to the caller. -/
theorem pinned_bundler_never_falls_back
    (env : NodeEnv) (p : FnParams) (b : Bundler)
    (hp : p.config.nodeBundler = Option.some b)
    (hb : b ≠ Bundler.esbuild_zisi) :
    zipWithFunctionWithFallback env p = zipFunction env p ∧
    chooseBundler env p = b ∧
    ∀ e : BundlerError, zipFunction env p = Except.error e →
      zipWithFunctionWithFallback env p = Except.error e := by
  have hne : p.config.nodeBundler ≠ Option.some Bundler.esbuild_zisi := by
    rw [hp]
    intro h
    exact hb (Option.some.inj h)
  have heq : zipWithFunctionWithFallback env p = zipFunction env p := by
    unfold zipWithFunctionWithFallback
    simp [hne]
  refine ⟨heq, ?_, ?_⟩
  · unfold chooseBundler
    rw [hp]
  · intro e he
    rw [heq, he]

/-- Witness for C3 at a concrete function pinned to zisi, in an
environment where zisi fails: no fallback happens and the zisi error
propagates. -/
theorem pinned_bundler_witness :
    zipWithFunctionWithFallback envBothFail pPinnedZisi =
      zipFunction envBothFail pPinnedZisi ∧
    chooseBundler envBothFail pPinnedZisi = Bundler.zisi ∧
    ∀ e : BundlerError, zipFunction envBothFail pPinnedZisi = Except.error e →
      zipWithFunctionWithFallback envBothFail pPinnedZisi = Except.error e :=
  pinned_bundler_never_falls_back envBothFail pPinnedZisi Bundler.zisi
    (by decide) (by decide)

/-! ## C4 -/

/-- A TypeScript function with no pinned bundler, whose entry file is
not an ES module. -/
def pTsPlain : FnParams :=
  { destFolder := "dist", extension := ".ts", filename := "func.zip",
    mainFile := "src/func.ts", srcPath := "src/func.ts",
    config := { nodeBundler := Option.none, schedule := Option.none } }

/-- A JavaScript function with no pinned bundler. -/
def pUnpinnedJs : FnParams :=
  { destFolder := "dist", extension := ".js", filename := "func.zip",
    mainFile := "src/func.js", srcPath := "src/func.js",
    config := { nodeBundler := Option.none, schedule := Option.none } }

/-- Environment in which exactly the file `src/func.js` is detected as
an ES module. -/
def envEsModule : NodeEnv :=
  { envBothFail with esModuleFiles := fun f => f == "src/func.js" }

/-- Counterexample to C4: a `.ts` function with no pinned bundler and
no ES-module syntax detected is given the esbuild bundler, not zisi as
the claim would require. -/
theorem default_bundler_ts_counterexample :
    pTsPlain.config.nodeBundler = Option.none ∧
    envBothFail.esModuleFiles pTsPlain.mainFile = false ∧
    chooseBundler envBothFail pTsPlain = Bundler.esbuild ∧
    Bundler.esbuild ≠ Bundler.zisi := by decide

/-- C4 (amended): for a function with no pinned bundler, selection
chooses zisi, except when the extension is `.ts` or static ES-module
syntax is detected for the entry file, in either of which cases esbuild
is selected. -/
theorem default_bundler_selection_amended (env : NodeEnv) (p : FnParams)
    (h : p.config.nodeBundler = Option.none) :
    chooseBundler env p =
      if p.extension = ".ts" then Bundler.esbuild
      else if env.esModuleFiles p.mainFile then Bundler.esbuild
      else Bundler.zisi := by
  unfold chooseBundler getDefaultBundler detectEsModule
  rw [h]

/-- Witness for the amended C4 at concrete inputs: an unpinned `.js`
function whose entry file is detected as an ES module gets esbuild. -/
theorem default_bundler_selection_amended_witness :
    pUnpinnedJs.config.nodeBundler = Option.none ∧
    chooseBundler envEsModule pUnpinnedJs = Bundler.esbuild :=
  ⟨by decide, by
    rw [default_bundler_selection_amended envEsModule pUnpinnedJs (by decide)]
    decide⟩

/-! ## C6 -/

/-- Counterexample to C6: for an unpinned `.js` function whose entry
file carries ES-module syntax, the listing path
(`getSrcFilesWithBundler`, which omits `mainFile` from the
`getDefaultBundler` call) selects zisi while the packaging path
(`zipFunction`) selects esbuild. -/
theorem listing_vs_packaging_bundler_counterexample :
    pUnpinnedJs.config.nodeBundler = Option.none ∧
    envEsModule.esModuleFiles pUnpinnedJs.mainFile = true ∧
    listingBundler envEsModule pUnpinnedJs = Bundler.zisi ∧
    chooseBundler envEsModule pUnpinnedJs = Bundler.esbuild ∧
    listingBundler envEsModule pUnpinnedJs ≠ chooseBundler envEsModule pUnpinnedJs := by
  decide

/-- C6 (amended): the bundler selected by the listing path equals the
one selected by the packaging path, except when the configuration does
not pin a bundler, the extension is not `.ts`, and the entry file is
detected as an ES module — in which case the listing path selects zisi
while the packaging path selects esbuild. -/
theorem listing_vs_packaging_bundler_amended (env : NodeEnv) (p : FnParams) :
    listingBundler env p = chooseBundler env p ∨
    (p.config.nodeBundler = Option.none ∧ p.extension ≠ ".ts" ∧
     env.esModuleFiles p.mainFile = true ∧
     listingBundler env p = Bundler.zisi ∧ chooseBundler env p = Bundler.esbuild) := by
  unfold listingBundler chooseBundler getDefaultBundler detectEsModule
  cases hnb : p.config.nodeBundler with
  | some b => exact Or.inl rfl
  | none =>
    by_cases hts : p.extension = ".ts"
    · exact Or.inl (by simp [hts])
    · cases hem : env.esModuleFiles p.mainFile with
      | false => exact Or.inl (by simp [hts, hem])
      | true => exact Or.inr ⟨rfl, hts, rfl, by simp [hts], by simp [hts, hem]⟩

/-! ## C5 -/

/-- C5: a function whose extension is `.zip` takes the passthrough
strategy regardless of the configured bundler and of the engine
outcomes: the source archive's bytes are copied unchanged to
`join(destFolder, filename)`, the result's path is that destination
path, and neither bundling engine is invoked (the performed action is
the byte copy). -/
theorem zip_extension_passthrough (env : NodeEnv) (p : FnParams)
    (hz : p.extension = ".zip") :
    zipFunction env p = Except.ok
      ({ path := join p.destFolder p.filename, config := p.config,
         bundlerErrors := Option.none },
       ZipAction.copied p.srcPath (join p.destFolder p.filename)
         (env.fileBytes p.srcPath)) := by
  unfold zipFunction
  simp [hz]

/-- Witness for C5 at a concrete pre-archived function (pinned to
esbuild, in an environment where both engines would fail): the result is
the byte copy of the source archive into the destination folder. -/
theorem zip_extension_passthrough_witness :
    zipFunction envBothFail pZipInput = Except.ok
      ({ path := "dist/func.zip", config := pZipInput.config,
         bundlerErrors := Option.none },
       ZipAction.copied "src/func.zip" "dist/func.zip" [7, 7, 7]) :=
  zip_extension_passthrough envBothFail pZipInput (by decide)

/-! ## C7 — archive assembler -/

/-- One file produced by a bundling outcome, before archiving: a path,
a file mode (permission bits) and its content bytes. -/
structure Entry where
  path : String
  mode : Nat
  bytes : List Nat
deriving DecidableEq, Repr

/-- One entry as written into the archive: path, mode, modification
timestamp and bytes. Equal entry sequences are byte-identical archives. -/
structure ArchiveEntry where
  path : String
  mode : Nat
  mtime : Nat
  bytes : List Nat
deriving DecidableEq, Repr

/-- The stable sort key order on entries: comparison of paths. -/
def entryLe (a b : Entry) : Prop := a.path ≤ b.path

instance : DecidableRel entryLe := fun a b =>
  inferInstanceAs (Decidable (a.path ≤ b.path))

instance : IsTotal Entry entryLe := ⟨fun a b => le_total a.path b.path⟩

instance : IsTrans Entry entryLe := ⟨fun _ _ _ h1 h2 => le_trans h1 h2⟩

/-- The fixed, non-varying modification timestamp stamped on every
archive entry. -/
def fixedMtime : Nat := 0

/-- Modelled from the spec: the Archive Assembler (the archive-writing
code is not under `src/`). Per the design document it sorts all output
entries by their path (a stable key) and writes each entry with its
original file mode and a fixed, non-varying modification timestamp, so
that wall-clock time never leaks into the archive. The `_now` argument
is the wall-clock time at assembly, which the assembler must ignore. -/
def assemble (_now : Nat) (entries : List Entry) : List ArchiveEntry :=
  (List.insertionSort entryLe entries).map
    (fun e => { path := e.path, mode := e.mode, mtime := fixedMtime, bytes := e.bytes })

/-- Two sorted entry lists that are permutations of each other and have
no duplicate paths are equal. -/
theorem sorted_perm_nodup_paths_eq {l1 l2 : List Entry} (hp : List.Perm l1 l2)
    (h1 : List.Sorted entryLe l1) (h2 : List.Sorted entryLe l2)
    (hn : (l1.map Entry.path).Nodup) : l1 = l2 := by
  induction l1 generalizing l2 with
  | nil => exact hp.nil_eq
  | cons a t ih =>
    cases l2 with
    | nil => exact absurd hp.symm.nil_eq (by simp)
    | cons b t2 =>
      have hab : a = b := by
        have hamem : a ∈ b :: t2 := hp.mem_iff.mp (List.mem_cons_self a t)
        have hbmem : b ∈ a :: t := hp.mem_iff.mpr (List.mem_cons_self b t2)
        rcases List.mem_cons.mp hamem with h | h
        · exact h
        · rcases List.mem_cons.mp hbmem with h' | h'
          · exact h'.symm
          · exfalso
            have hba : entryLe b a := (List.sorted_cons.mp h2).1 a h
            have hab' : entryLe a b := (List.sorted_cons.mp h1).1 b h'
            have hpatheq : a.path = b.path := le_antisymm hab' hba
            exact (List.nodup_cons.mp hn).1
              (hpatheq ▸ List.mem_map_of_mem Entry.path h')
      subst hab
      have hres := ih hp.cons_inv (List.sorted_cons.mp h1).2
        (List.sorted_cons.mp h2).2 (List.nodup_cons.mp hn).2
      rw [hres]

/-- C7: archive assembly is deterministic. Packaging the same function
twice may traverse the closure in a different order (yielding a
permutation of the same entry set) and happens at different wall-clock
times, yet — since each resolved path occurs at most once — the two
assembled archives are identical entry for entry, hence byte-identical. -/
theorem assemble_deterministic {l1 l2 : List Entry} (t1 t2 : Nat)
    (hp : List.Perm l1 l2) (hn : (l1.map Entry.path).Nodup) :
    assemble t1 l1 = assemble t2 l2 := by
  unfold assemble
  have hs1 := List.sorted_insertionSort entryLe l1
  have hs2 := List.sorted_insertionSort entryLe l2
  have hperm : List.Perm (List.insertionSort entryLe l1) (List.insertionSort entryLe l2) :=
    ((List.perm_insertionSort entryLe l1).trans hp).trans
      (List.perm_insertionSort entryLe l2).symm
  have hn' : ((List.insertionSort entryLe l1).map Entry.path).Nodup :=
    (((List.perm_insertionSort entryLe l1).map Entry.path).nodup_iff).mpr hn
  rw [sorted_perm_nodup_paths_eq hperm hs1 hs2 hn']

/-- Witness for C7 at a concrete pair of runs: the same two files
discovered in opposite orders, assembled at wall-clock times 5 and 9,
produce the same archive. -/
theorem assemble_deterministic_witness :
    List.Perm [Entry.mk "b.js" 420 [1, 2], Entry.mk "a.js" 493 [3]]
      [Entry.mk "a.js" 493 [3], Entry.mk "b.js" 420 [1, 2]] ∧
    assemble 5 [Entry.mk "b.js" 420 [1, 2], Entry.mk "a.js" 493 [3]] =
      assemble 9 [Entry.mk "a.js" 493 [3], Entry.mk "b.js" 420 [1, 2]] :=
  ⟨by decide, assemble_deterministic 5 9 (by decide) (by decide)⟩

/-! ## Function listing surface (`src/main.ts`) -/

/-- Models Node's `path.extname`: the substring of the last path
component from its final dot, empty when the component has no dot, when
the only dot is its first character, or when the component is `..`. -/
def extname (p : String) : String :=
  let base : List Char := (p.toList.reverse.takeWhile (fun c => c ≠ '/')).reverse
  let afterDot : List Char := base.reverse.takeWhile (fun c => c ≠ '.')
  if base = ['.', '.'] then ""
  else if afterDot.length = base.length then ""
  else if base.length - afterDot.length - 1 = 0 then ""
  else String.mk ('.' :: afterDot.reverse)

/-- The arguments a runtime's source-file lister receives. -/
structure SrcArgs where
  extension : String
  srcPath : String
  mainFile : String
deriving DecidableEq, Repr

/-- A runtime (`src/runtimes/runtime.ts`): its name and its optional
source-file lister (`getSrcFiles` may be absent — not a function). -/
structure Runtime where
  name : String
  getSrcFiles : Option (SrcArgs → List String)

/-- A discovered function (`src/function.ts`): the fields `src/main.ts`
reads. -/
structure FunctionSource where
  name : String
  mainFile : String
  extension : String
  srcPath : String
  runtime : Runtime
  config : Config

/-- The record `listFunctions` returns per function
(`ListedFunction` in `src/main.ts`). -/
structure ListedFunction where
  name : String
  mainFile : String
  runtime : String
  extension : String
  schedule : Option String
deriving DecidableEq, Repr

/-- The record `listFunctionsFiles` returns per resolved source file
(the object literal built in `getListedFunctionFiles`, which carries no
schedule field). -/
structure ListedFunctionFile where
  srcFile : String
  name : String
  mainFile : String
  runtime : String
  extension : String
deriving DecidableEq, Repr

/-- `getListedFunction` (`src/main.ts`, lines 57-59). -/
def getListedFunction (f : FunctionSource) : ListedFunction :=
  { name := f.name, mainFile := f.mainFile, runtime := f.runtime.name,
    extension := f.extension, schedule := f.config.schedule }

/-- `getSrcFiles` (`src/main.ts`, lines 71-84): when the extension is
`.zip` or the runtime has no source-file lister, the resolution is the
one-element list holding the function's own source path; otherwise the
runtime's lister is invoked. -/
def getSrcFiles (f : FunctionSource) : List String :=
  if f.extension = ".zip" then [f.srcPath]
  else
    match f.runtime.getSrcFiles with
    | Option.none => [f.srcPath]
    | Option.some g =>
        g { extension := f.extension, srcPath := f.srcPath, mainFile := f.mainFile }

/-- `getListedFunctionFiles` (`src/main.ts`, lines 61-69): one record
per resolved source file, with the extension recomputed from that file. -/
def getListedFunctionFiles (f : FunctionSource) : List ListedFunctionFile :=
  (getSrcFiles f).map (fun srcFile =>
    { srcFile := srcFile, name := f.name, mainFile := f.mainFile,
      runtime := f.runtime.name, extension := extname srcFile })

/-- Oracle environment for discovery: the filesystem helpers
`resolveFunctionsDirectories` / `listFunctionsDirectories`
(`src/utils/fs.ts`) and the runtime dispatcher `getFunctionsFromPaths`
(`src/runtimes`), all external to the listing logic itself. -/
structure DiscoveryEnv where
  resolveFunctionsDirectories : List String → List String
  listFunctionsDirectories : List String → List String
  getFunctionsFromPaths : List String → List FunctionSource

/-- The discovery pipeline shared by `listFunctions` and
`listFunctionsFiles` (`src/main.ts`, lines 34-36 and 47-49). -/
def discoveredFunctions (d : DiscoveryEnv) (relativeSrcFolders : List String) :
    List FunctionSource :=
  d.getFunctionsFromPaths (d.listFunctionsDirectories
    (d.resolveFunctionsDirectories relativeSrcFolders))

/-- `listFunctions` (`src/main.ts`, lines 29-39). -/
def listFunctions (d : DiscoveryEnv) (relativeSrcFolders : List String) :
    List ListedFunction :=
  (discoveredFunctions d relativeSrcFolders).map getListedFunction

/-- `listFunctionsFiles` (`src/main.ts`, lines 42-55): the per-function
file records, flattened. -/
def listFunctionsFiles (d : DiscoveryEnv) (relativeSrcFolders : List String) :
    List ListedFunctionFile :=
  ((discoveredFunctions d relativeSrcFolders).map getListedFunctionFiles).flatten

/-! ## C8 -/

/-- C8: `listFunctions` performs discovery only — its result is exactly
one record per discovered function, a pure projection holding that
function's name, main entry file, runtime name, extension and optional
schedule, with no dependency resolution and no archive writing (the
result does not depend on any runtime's source-file lister or on any
bundling outcome). -/
theorem listFunctions_discovery_only (d : DiscoveryEnv) (folders : List String) :
    listFunctions d folders = (discoveredFunctions d folders).map
      (fun f => { name := f.name, mainFile := f.mainFile, runtime := f.runtime.name,
                  extension := f.extension, schedule := f.config.schedule }) := rfl

/-! ## C9 -/

/-- C9: for a function whose extension is `.zip`, or whose runtime has
no source-file lister, `getSrcFiles` returns exactly the one-element
list holding that function's own source path. -/
theorem getSrcFiles_zip_or_no_lister (f : FunctionSource)
    (h : f.extension = ".zip" ∨ f.runtime.getSrcFiles = Option.none) :
    getSrcFiles f = [f.srcPath] := by
  unfold getSrcFiles
  rcases h with h | h
  · simp [h]
  · rw [h]
    split
    · rfl
    · rfl

/-- A pre-archived function whose runtime does have a lister — which
must not be consulted. -/
def fZipListed : FunctionSource :=
  { name := "test", mainFile := "funcs/test.zip", extension := ".zip",
    srcPath := "funcs/test.zip",
    runtime := { name := "js", getSrcFiles := Option.some (fun _ => ["unexpected.js"]) },
    config := { nodeBundler := Option.none, schedule := Option.none } }

/-- Witness for C9 at a concrete `.zip` function: the resolution is the
singleton of its own source path, ignoring the runtime lister. -/
theorem getSrcFiles_zip_witness :
    fZipListed.extension = ".zip" ∧ getSrcFiles fZipListed = ["funcs/test.zip"] :=
  ⟨by decide, getSrcFiles_zip_or_no_lister fZipListed (Or.inl (by decide))⟩

/-! ## C10 -/

/-- C10: every record returned by `listFunctionsFiles` has its
extension field equal to the file extension of its own resolved source
file, and its name, main file and runtime name copied unchanged from
the owning discovered function. -/
theorem listFunctionsFiles_fields (d : DiscoveryEnv) (folders : List String)
    (r : ListedFunctionFile) (h : r ∈ listFunctionsFiles d folders) :
    r.extension = extname r.srcFile ∧
    ∃ f ∈ discoveredFunctions d folders,
      r.name = f.name ∧ r.mainFile = f.mainFile ∧ r.runtime = f.runtime.name := by
  unfold listFunctionsFiles at h
  rw [List.mem_flatten] at h
  obtain ⟨l, hl, hr⟩ := h
  rw [List.mem_map] at hl
  obtain ⟨f, hf, rfl⟩ := hl
  unfold getListedFunctionFiles at hr
  rw [List.mem_map] at hr
  obtain ⟨s, hs, rfl⟩ := hr
  exact ⟨rfl, f, hf, rfl, rfl, rfl⟩

/-- The `two` fixture: its lister resolves a JSON dependency alongside
the main file, so one record's extension differs from the main file's. -/
def fTwo : FunctionSource :=
  { name := "two", mainFile := "two/two.js", extension := ".js", srcPath := "two/two.js",
    runtime := { name := "js",
                 getSrcFiles := Option.some (fun _ => ["two/three.json", "two/two.js"]) },
    config := { nodeBundler := Option.none, schedule := Option.none } }

/-- A discovery environment returning exactly the `two` fixture. -/
def dOne : DiscoveryEnv :=
  { resolveFunctionsDirectories := fun xs => xs
    listFunctionsDirectories := fun xs => xs
    getFunctionsFromPaths := fun _ => [fTwo] }

/-- The JSON record listed for the `two` fixture. -/
def rJson : ListedFunctionFile :=
  { srcFile := "two/three.json", name := "two", mainFile := "two/two.js",
    runtime := "js", extension := ".json" }

/-- Witness for C10 at a concrete listing: the JSON record's extension
is that of its own source file (`.json`), differing from the owning
function's main-file extension (`.js`). -/
theorem listFunctionsFiles_fields_witness :
    rJson ∈ listFunctionsFiles dOne ["functions"] ∧
    rJson.extension = extname rJson.srcFile ∧
    rJson.extension = ".json" ∧ extname fTwo.mainFile = ".js" :=
  ⟨by decide, (listFunctionsFiles_fields dOne ["functions"] rJson (by decide)).1,
    by decide, by decide⟩

end Zisi
